import Mathlib

/-!
Verification of the property-managing service (src/main.py, src/models.py).

The embedding models:
* the pydantic data model (`Property`, `PropertyUpdate`);
* the pybreaker circuit breaker `breaker = pybreaker.CircuitBreaker(fail_max=5, reset_timeout=30)`;
* the tenacity retry decorator
  `retry(stop=stop_after_attempt(3), wait=wait_exponential(multiplier=1, min=2, max=6),
         retry=retry_if_exception_type(requests.exceptions.RequestException))`;
* the breaker-and-retry wrapped helper functions and the endpoint handlers.

Python decorator order `@retry_strategy` above `@breaker` composes as
`retry_strategy(breaker(helper))`: the retry loop is the outer layer and every
single attempt goes through the circuit breaker.

External collaborators (the supabase store, the companion user service, the
Kafka producer) are modelled as oracles: a function from the attempt number to
the outcome that collaborator produces on that attempt.  Python floats in the
data model are carried as `Int`: the program never computes with them, it only
stores and transports them.  Time is a `Nat` count of seconds.
-/

set_option linter.unusedVariables false

namespace PropertyManaging

/-- Data model of src/models.py, class `Property` (all thirteen fields). -/
structure Property where
  name : String
  description : String
  price : Int
  latitude : Int
  longitude : Int
  user_id : String
  image : String
  type : String
  location : String
  size : Int
  location_point : String
  location_id : String
  user_data : String
deriving DecidableEq, Repr

/-- Data model of src/models.py, class `PropertyUpdate`: every field optional,
`none` meaning the field was not set in the payload.  Faithfully to the source,
there is no `location` field here. -/
structure PropertyUpdate where
  name : Option String := none
  description : Option String := none
  price : Option Int := none
  latitude : Option Int := none
  longitude : Option Int := none
  user_id : Option String := none
  image : Option String := none
  type : Option String := none
  size : Option Int := none
  location_point : Option String := none
  location_id : Option String := none
  user_data : Option String := none
deriving DecidableEq, Repr

/-- `property.dict(exclude_unset=True)` is the empty dict exactly when no field
of the payload was set (main.py:319-321). -/
def PropertyUpdate.isEmptyDict (u : PropertyUpdate) : Bool :=
  u.name.isNone && u.description.isNone && u.price.isNone && u.latitude.isNone &&
  u.longitude.isNone && u.user_id.isNone && u.image.isNone && u.type.isNone &&
  u.size.isNone && u.location_point.isNone && u.location_id.isNone && u.user_data.isNone

/-- Modelled from the spec: the store applies
`supabase.table("properties").update(update_data)` as a sparse patch — exactly
the columns present in `update_data` (the set fields of the payload) are
written, every absent column keeps its stored value (spec section 3: absence
means leave unchanged, not clear). -/
def applyUpdate (p : Property) (u : PropertyUpdate) : Property where
  name := u.name.getD p.name
  description := u.description.getD p.description
  price := u.price.getD p.price
  latitude := u.latitude.getD p.latitude
  longitude := u.longitude.getD p.longitude
  user_id := u.user_id.getD p.user_id
  image := u.image.getD p.image
  type := u.type.getD p.type
  location := p.location
  size := u.size.getD p.size
  location_point := u.location_point.getD p.location_point
  location_id := u.location_id.getD p.location_id
  user_data := u.user_data.getD p.user_data

/-- The exceptions that can travel through the resilience layer. -/
inductive Exc
  | requestException (msg : String)
  | httpException (status : Nat) (detail : String)
  | indexError
  | circuitBreakerError (msg : String)
  | retryError
  | kafkaError (msg : String)
  | otherError (msg : String)
deriving DecidableEq, Repr

/-- main.py:76-78 and the `retry_if_exception_type` clause of main.py:81-85: a
failure is transient exactly when it is a `requests.exceptions.RequestException`. -/
def is_transient_error : Exc → Bool
  | .requestException _ => true
  | _ => false

/-- Python `str(e)` for each modelled exception. -/
def excMessage : Exc → String
  | .requestException m => m
  | .httpException s d => toString s ++ ": " ++ d
  | .indexError => "list index out of range"
  | .circuitBreakerError m => m
  | .retryError => "RetryError"
  | .kafkaError m => m
  | .otherError m => m

/-- pybreaker circuit states. -/
inductive CircuitState
  | closed
  | opened
  | halfOpen
deriving DecidableEq, Repr

/-- The shared pybreaker instance state: current state, consecutive-failure
counter, and the time the circuit opened. -/
structure CircuitBreaker where
  state : CircuitState
  fail_counter : Nat
  opened_at : Nat
deriving DecidableEq, Repr

/-- main.py:72 — `pybreaker.CircuitBreaker(fail_max=5, reset_timeout=30)`. -/
def fail_max : Nat := 5

/-- main.py:72 — the breaker cooldown in seconds. -/
def reset_timeout : Nat := 30

/-- The breaker as constructed at startup: closed, zero failures. -/
def breaker0 : CircuitBreaker := ⟨.closed, 0, 0⟩

/-- One execution of a helper body: its outcome, and how many store network
calls (`.execute()` on the supabase client) this execution performed. -/
structure BodyResult (α : Type) where
  result : Except Exc α
  storeCalls : Nat
deriving Repr

/-- Outcome of one breaker-wrapped invocation: the new breaker state, the
result surfaced to the caller, whether the wrapped body actually ran, and the
store network calls made. -/
structure BreakerOutcome (α : Type) where
  breaker : CircuitBreaker
  result : Except Exc α
  ran : Bool
  storeCalls : Nat
deriving Repr

/-- pybreaker: handling of a body outcome once the body has been allowed to
run.  Success resets the failure counter (and closes a half-open circuit);
failure increments the counter; a half-open trial failure reopens the circuit,
and a closed-state failure that reaches `fail_max` opens it, both replacing the
original exception by `CircuitBreakerError`. -/
def breakerAttempt (b : CircuitBreaker) (now : Nat) (r : Except Exc α) :
    CircuitBreaker × Except Exc α :=
  match r with
  | .ok v => (⟨.closed, 0, b.opened_at⟩, .ok v)
  | .error e =>
    let c := b.fail_counter + 1
    if b.state = .halfOpen then
      (⟨.opened, c, now⟩, .error (.circuitBreakerError "Trial call failed, circuit breaker opened"))
    else if fail_max ≤ c then
      (⟨.opened, c, now⟩, .error (.circuitBreakerError "Failures threshold reached, circuit breaker opened"))
    else
      (⟨b.state, c, b.opened_at⟩, .error e)

/-- One call through the pybreaker instance.  An open circuit rejects the call
without running the body while the cooldown has not elapsed, and lets a single
half-open trial through afterwards. -/
def breakerCall (b : CircuitBreaker) (now : Nat) (body : BodyResult α) : BreakerOutcome α :=
  match b.state with
  | .opened =>
    if now < b.opened_at + reset_timeout then
      ⟨b, .error (.circuitBreakerError "Timeout not elapsed yet, circuit breaker still open"), false, 0⟩
    else
      let s := breakerAttempt ⟨.halfOpen, b.fail_counter, b.opened_at⟩ now body.result
      ⟨s.1, s.2, true, body.storeCalls⟩
  | _ =>
    let s := breakerAttempt b now body.result
    ⟨s.1, s.2, true, body.storeCalls⟩

/-- tenacity `wait_exponential(multiplier=1, min=2, max=6)` evaluated after the
k-th attempt has failed: `max(min, min(max, multiplier * 2 ** (k - 1)))`. -/
def wait_exponential (multiplier minW maxW k : Nat) : Nat :=
  Nat.max minW (Nat.min maxW (multiplier * 2 ^ (k - 1)))

/-- The backoff delay slept before the k-th retry under main.py:81-85. -/
def retryWait (k : Nat) : Nat := wait_exponential 1 2 6 k

/-- main.py:81-85 — `stop_after_attempt(3)`. -/
def max_attempts : Nat := 3

/-- Accumulated outcome of one logical call through `retry_strategy(breaker(helper))`:
final breaker state, surfaced result, number of breaker-wrapped attempts made,
number of times the body actually ran, store network calls, and the backoff
delays slept between attempts, in order. -/
structure CallOutcome (α : Type) where
  breaker : CircuitBreaker
  result : Except Exc α
  attempts : Nat
  bodyRuns : Nat
  storeCalls : Nat
  waits : List Nat
deriving Repr

/-- The tenacity retry loop around the breaker-wrapped body.  `k` is the
1-based number of the current attempt and `remaining` the attempts still
allowed after this one.  A successful attempt returns immediately; a failure
whose exception is not a `RequestException` is re-raised immediately; a
transient failure is retried after sleeping `retryWait k`, unless the attempt
budget is exhausted, in which case `RetryError` is raised. -/
def retryLoop (now : Nat) (att : Nat → BodyResult α) :
    CircuitBreaker → Nat → Nat → CallOutcome α
  | b, _, 0 => ⟨b, .error .retryError, 0, 0, 0, []⟩
  | b, k, remaining + 1 =>
    let o := breakerCall b now (att k)
    let runs := if o.ran then 1 else 0
    match o.result with
    | .ok v => ⟨o.breaker, .ok v, 1, runs, o.storeCalls, []⟩
    | .error e =>
      if is_transient_error e then
        if remaining = 0 then
          ⟨o.breaker, .error .retryError, 1, runs, o.storeCalls, []⟩
        else
          let rest := retryLoop now att o.breaker (k + 1) remaining
          ⟨rest.breaker, rest.result, 1 + rest.attempts, runs + rest.bodyRuns,
            o.storeCalls + rest.storeCalls, retryWait k :: rest.waits⟩
      else
        ⟨o.breaker, .error e, 1, runs, o.storeCalls, []⟩

/-- One logical call of a `@retry_strategy @breaker` decorated helper whose
body behaviour on the k-th attempt is `att k`. -/
def retryBreakerCall (b : CircuitBreaker) (now : Nat) (att : Nat → BodyResult α) : CallOutcome α :=
  retryLoop now att b 1 max_attempts

/-- HTTP response of an endpoint: either the 200 success payload or an
`HTTPException` with status code and detail string. -/
inductive Response (α : Type)
  | ok (payload : α)
  | httpError (status : Nat) (detail : String)
deriving DecidableEq, Repr

/-- The common except-chain of every endpoint (for example main.py:127-138):
`RetryError` maps to 503, `pybreaker.CircuitBreakerError` maps to 503, and any
other exception to 400 with `str(e)` as detail. -/
def handleEndpointError : Exc → Response α
  | .retryError =>
    .httpError 503 "Service temporarily unavailable after multiple retry attempts. Please try again later."
  | .circuitBreakerError _ =>
    .httpError 503 "Service temporarily unavailable due to repeated failures."
  | e => .httpError 400 (excMessage e)

/-- Observable outcome of one endpoint request: the breaker state after the
request, the HTTP response, the store network calls made, and how many times a
breaker-wrapped helper body actually ran. -/
structure EndpointOutcome (α : Type) where
  breaker : CircuitBreaker
  response : Response α
  storeCalls : Nat
  bodyRuns : Nat
deriving Repr

/-- Body of `update_property_in_supabase` (main.py:316-328): build
`update_data = property.dict(exclude_unset=True)`; if it is empty raise
`HTTPException(400, "No fields provided for update.")` before touching the
store, otherwise perform the store update call, whose outcome `store` the
external store oracle supplies. -/
def update_property_body (u : PropertyUpdate) (store : Except Exc (List Property)) :
    BodyResult (List Property) :=
  if u.isEmptyDict then
    ⟨.error (.httpException 400 "No fields provided for update."), 0⟩
  else
    ⟨store, 1⟩

/-- Endpoint `update_property` (main.py:332-351): call the wrapped helper and
map the outcome through the common except-chain. -/
def update_property (b : CircuitBreaker) (now : Nat) (property_id : String)
    (property : PropertyUpdate) (storeAtt : Nat → Except Exc (List Property)) :
    EndpointOutcome (List Property) :=
  let o := retryBreakerCall b now (fun k => update_property_body property (storeAtt k))
  match o.result with
  | .ok v => ⟨o.breaker, .ok v, o.storeCalls, o.bodyRuns⟩
  | .error e => ⟨o.breaker, handleEndpointError e, o.storeCalls, o.bodyRuns⟩

/-- Body of `get_property_from_supabase` (main.py:142-155): select the rows
matching the id (one store call); then read `response.data[0]`, which raises
`IndexError` on an empty result set; then fetch the companion-service user data
for `data[0]["user_id"]` and write it into the record. -/
def get_property_body (store : Except Exc (List Property))
    (companion : String → Except Exc String) : BodyResult (List Property) :=
  match store with
  | .error e => ⟨.error e, 1⟩
  | .ok [] => ⟨.error .indexError, 1⟩
  | .ok (p :: rest) =>
    match companion p.user_id with
    | .error e => ⟨.error e, 1⟩
    | .ok u => ⟨.ok ({ p with user_data := u } :: rest), 1⟩

/-- Observable outcome of one `get_property` request; `publishedEvent` records
whether a Kafka view event was sent to the sink. -/
structure GetPropertyOutcome where
  breaker : CircuitBreaker
  response : Response Property
  publishedEvent : Bool
  storeCalls : Nat
  bodyRuns : Nat
deriving Repr

/-- Fetch half of the `get_property` endpoint (main.py:179-203): call the
wrapped helper; on a non-empty result return `data[0]`; on an empty result the
in-try `raise HTTPException(404, ...)` is caught by the generic
`except Exception` and re-raised as 400 with `str(e)`; helper exceptions go
through the common except-chain. -/
def get_property_fetch (b : CircuitBreaker) (now : Nat) (property_id : String)
    (published : Bool) (storeAtt : Nat → Except Exc (List Property))
    (companionAtt : Nat → String → Except Exc String) : GetPropertyOutcome :=
  let o := retryBreakerCall b now (fun k => get_property_body (storeAtt k) (companionAtt k))
  match o.result with
  | .ok (p :: _) => ⟨o.breaker, .ok p, published, o.storeCalls, o.bodyRuns⟩
  | .ok [] =>
    ⟨o.breaker,
      .httpError 400
        (excMessage (.httpException 404 ("Property with ID " ++ property_id ++ " not found."))),
      published, o.storeCalls, o.bodyRuns⟩
  | .error e => ⟨o.breaker, handleEndpointError e, published, o.storeCalls, o.bodyRuns⟩

/-- Endpoint `get_property` (main.py:160-203).  When `user_id` is provided the
Kafka producer is constructed and the view event sent *first*, inside the try
block: a raising publish is caught by the generic `except Exception` and the
request ends with 400 before the store fetch is ever attempted.  Only then is
the property fetched through the wrapped helper. -/
def get_property (b : CircuitBreaker) (now : Nat) (property_id : String)
    (user_id : Option String) (kafka : Except Exc Unit)
    (storeAtt : Nat → Except Exc (List Property))
    (companionAtt : Nat → String → Except Exc String) : GetPropertyOutcome :=
  match user_id with
  | some _ =>
    match kafka with
    | .error e => ⟨b, .httpError 400 (excMessage e), false, 0, 0⟩
    | .ok _ => get_property_fetch b now property_id true storeAtt companionAtt
  | none => get_property_fetch b now property_id false storeAtt companionAtt

/-- Endpoint `create_property` (main.py:113-138): the helper body is a single
store insert call. -/
def create_property (b : CircuitBreaker) (now : Nat) (property : Property)
    (storeAtt : Nat → Except Exc (List Property)) : EndpointOutcome (List Property) :=
  let o := retryBreakerCall b now (fun k => (⟨storeAtt k, 1⟩ : BodyResult (List Property)))
  match o.result with
  | .ok v => ⟨o.breaker, .ok v, o.storeCalls, o.bodyRuns⟩
  | .error e => ⟨o.breaker, handleEndpointError e, o.storeCalls, o.bodyRuns⟩

/-- Endpoint `get_properties` (main.py:207-242): the helper body runs the
unbounded select when `count == 0` and the limited select otherwise; either way
it is one store call. -/
def get_properties (b : CircuitBreaker) (now : Nat) (count : Nat)
    (storeAllAtt : Nat → Except Exc (List Property))
    (storeLimitAtt : Nat → Nat → Except Exc (List Property)) : EndpointOutcome (List Property) :=
  let o := retryBreakerCall b now
    (fun k => (⟨if count = 0 then storeAllAtt k else storeLimitAtt count k, 1⟩ :
      BodyResult (List Property)))
  match o.result with
  | .ok v => ⟨o.breaker, .ok v, o.storeCalls, o.bodyRuns⟩
  | .error e => ⟨o.breaker, handleEndpointError e, o.storeCalls, o.bodyRuns⟩

/-- Endpoint `delete_property` (main.py:280-310): the helper body is a single
store delete call. -/
def delete_property (b : CircuitBreaker) (now : Nat) (property_id : String)
    (storeAtt : Nat → Except Exc (List Property)) : EndpointOutcome (List Property) :=
  let o := retryBreakerCall b now (fun k => (⟨storeAtt k, 1⟩ : BodyResult (List Property)))
  match o.result with
  | .ok v => ⟨o.breaker, .ok v, o.storeCalls, o.bodyRuns⟩
  | .error e => ⟨o.breaker, handleEndpointError e, o.storeCalls, o.bodyRuns⟩

/-- A concrete stored record, used in concrete scenarios. -/
def sampleProperty : Property :=
  ⟨"house", "a house", 100, 10, 20, "u1", "img.png", "flat", "city", 50, "pt", "loc1", "ud"⟩

/-- The update payload `{}`: no field set. -/
def emptyUpdate : PropertyUpdate := {}

/-- The update payload that sets only the price, for example `{price: 500}`. -/
def priceOnly (v : Int) : PropertyUpdate := { price := some v }

/-- A helper-body execution that fails with a transient network error after one
store call. -/
def failureBody : BodyResult Unit := ⟨.error (.requestException "connection refused"), 1⟩

/-- `n` consecutive directly breaker-wrapped calls whose bodies fail
transiently, all at time `t`, starting from the freshly constructed breaker. -/
def runFailures (t : Nat) : Nat → CircuitBreaker
  | 0 => breaker0
  | n + 1 => (breakerCall (runFailures t n) t failureBody).breaker

/-- `n` consecutive `update_property` requests with the empty payload, all at
time `t`, starting from the freshly constructed breaker; tracks the shared
breaker state. -/
def runEmptyUpdates (t : Nat) (storeAtt : Nat → Except Exc (List Property)) :
    Nat → CircuitBreaker
  | 0 => breaker0
  | n + 1 =>
    (update_property (runEmptyUpdates t storeAtt n) t "p1" emptyUpdate storeAtt).breaker

/-- A response is a 400-class (4xx) error. -/
def is400Class (r : Response α) : Prop :=
  ∃ s d, r = Response.httpError s d ∧ 400 ≤ s ∧ s < 500

/-- Closed form of `runFailures`: below `fail_max` consecutive failures the
circuit stays closed with the exact failure count; from `fail_max` on it is
open, with `opened_at` the time of the fifth failure. -/
lemma runFailures_eq (t : Nat) : ∀ n, runFailures t n =
    if n < fail_max then ⟨.closed, n, 0⟩ else ⟨.opened, fail_max, t⟩ := by
  intro n
  induction n with
  | zero => simp [runFailures, breaker0, fail_max]
  | succ n ih =>
    rw [runFailures, ih]
    simp only [fail_max] at *
    rcases Nat.lt_trichotomy (n + 1) 5 with h | h | h
    · simp [breakerCall, breakerAttempt, failureBody, show n < 5 by omega, h,
        show ¬ 5 ≤ n + 1 by omega, fail_max]
    · have h4 : n = 4 := by omega
      subst h4
      simp [breakerCall, breakerAttempt, failureBody, fail_max]
    · simp [breakerCall, breakerAttempt, failureBody, show ¬ n < 5 by omega,
        show ¬ n + 1 < 5 by omega, reset_timeout, show t < t + 30 by omega]

/-- An open circuit whose cooldown has not elapsed short-circuits the whole
wrapped call: one attempt, the body never runs, no store call, the breaker is
unchanged, and `CircuitBreakerError` is surfaced (it is not retried because it
is not a `RequestException`). -/
lemma retryBreakerCall_open (b : CircuitBreaker) (now : Nat) (att : Nat → BodyResult α)
    (hs : b.state = .opened) (ht : now < b.opened_at + reset_timeout) :
    retryBreakerCall b now att =
      ⟨b, .error (.circuitBreakerError "Timeout not elapsed yet, circuit breaker still open"),
        1, 0, 0, []⟩ := by
  simp [retryBreakerCall, max_attempts, retryLoop, breakerCall, hs, ht, is_transient_error]

/-- The fetch half of `get_property` reports exactly the publish flag it was
handed. -/
lemma get_property_fetch_published (b : CircuitBreaker) (now : Nat) (pid : String)
    (pub : Bool) (storeAtt : Nat → Except Exc (List Property))
    (companionAtt : Nat → String → Except Exc String) :
    (get_property_fetch b now pid pub storeAtt companionAtt).publishedEvent = pub := by
  simp only [get_property_fetch]
  split <;> rfl

/-- Breaker evolution of one empty-payload update against a closed breaker:
the in-helper 400 counts as one more consecutive failure, opening the circuit
when the count reaches `fail_max`. -/
lemma update_property_empty_step (c a now : Nat) (pid : String) (u : PropertyUpdate)
    (storeAtt : Nat → Except Exc (List Property)) (hu : u.isEmptyDict = true) :
    (update_property ⟨.closed, c, a⟩ now pid u storeAtt).breaker =
      if fail_max ≤ c + 1 then ⟨.opened, c + 1, now⟩ else ⟨.closed, c + 1, a⟩ := by
  by_cases hc : fail_max ≤ c + 1 <;>
    simp [update_property, retryBreakerCall, max_attempts, retryLoop, breakerCall,
      breakerAttempt, update_property_body, hu, hc, is_transient_error]

/-- Full outcome of one empty-payload update against a closed breaker whose
new failure count stays below the threshold: the in-helper 400 is surfaced via
the generic handler, one consecutive failure is recorded, and no store call is
made. -/
lemma update_property_empty_below (c a now : Nat) (pid : String) (u : PropertyUpdate)
    (storeAtt : Nat → Except Exc (List Property)) (hu : u.isEmptyDict = true)
    (hc : c + 1 < fail_max) :
    update_property ⟨.closed, c, a⟩ now pid u storeAtt =
      ⟨⟨.closed, c + 1, a⟩, .httpError 400 "400: No fields provided for update.", 0, 1⟩ := by
  have hc2 : ¬ fail_max ≤ c + 1 := by omega
  simp [update_property, retryBreakerCall, max_attempts, retryLoop, breakerCall,
    breakerAttempt, update_property_body, hu, hc2, is_transient_error,
    handleEndpointError, excMessage]
  rfl

/-- Any endpoint request against an open breaker within its cooldown yields the
503 breaker response, leaves the breaker unchanged, and makes no store call;
stated here for `update_property`. -/
lemma update_property_open (b : CircuitBreaker) (now : Nat) (pid : String)
    (u : PropertyUpdate) (storeAtt : Nat → Except Exc (List Property))
    (hs : b.state = .opened) (ht : now < b.opened_at + reset_timeout) :
    update_property b now pid u storeAtt =
      ⟨b, .httpError 503 "Service temporarily unavailable due to repeated failures.", 0, 0⟩ := by
  simp [update_property, retryBreakerCall_open, hs, ht, handleEndpointError]

/-- Closed form of `runEmptyUpdates`: empty-payload updates alone drive the
shared breaker through the same failure count as network failures do. -/
lemma runEmptyUpdates_eq (t : Nat) (storeAtt : Nat → Except Exc (List Property)) :
    ∀ n, runEmptyUpdates t storeAtt n =
      if n < fail_max then ⟨.closed, n, 0⟩ else ⟨.opened, fail_max, t⟩ := by
  intro n
  induction n with
  | zero => simp [runEmptyUpdates, breaker0, fail_max]
  | succ n ih =>
    rw [runEmptyUpdates, ih]
    simp only [fail_max] at *
    rcases Nat.lt_trichotomy (n + 1) 5 with h | h | h
    · rw [if_pos (show n < 5 by omega),
        update_property_empty_step n 0 t "p1" emptyUpdate storeAtt (by decide)]
      simp [fail_max, show ¬ 5 ≤ n + 1 by omega, h]
    · have h4 : n = 4 := by omega
      subst h4
      rw [if_pos (by omega),
        update_property_empty_step 4 0 t "p1" emptyUpdate storeAtt (by decide)]
      simp [fail_max]
    · rw [if_neg (show ¬ n < 5 by omega),
        update_property_open _ _ _ _ _ rfl (by simp [reset_timeout])]
      simp [show ¬ n + 1 < 5 by omega]

/-- Claim C3: after any run of `n` consecutive failures with `n < fail_max`
the circuit is still closed (with failure count exactly `n`) and the next call
reaches the network (the breaker runs the wrapped body); after `n ≥ fail_max`
consecutive failures the circuit is open with `opened_at` the time of the run,
and every call made while open and within `reset_timeout` of opening is
rejected immediately with `CircuitBreakerError`, without running the body, and
leaves the breaker unchanged. -/
theorem breaker_threshold_behaviour {α : Type} (n t tc : Nat) (body : BodyResult α) :
    (n < fail_max →
      (runFailures t n).state = .closed ∧
      (runFailures t n).fail_counter = n ∧
      (breakerCall (runFailures t n) tc body).ran = true) ∧
    (fail_max ≤ n →
      (runFailures t n).state = .opened ∧
      (runFailures t n).opened_at = t ∧
      (tc < t + reset_timeout →
        (breakerCall (runFailures t n) tc body).ran = false ∧
        (breakerCall (runFailures t n) tc body).result =
          .error (.circuitBreakerError "Timeout not elapsed yet, circuit breaker still open") ∧
        (breakerCall (runFailures t n) tc body).breaker = runFailures t n)) := by
  rw [runFailures_eq]
  constructor
  · intro h
    simp [h, breakerCall]
  · intro h
    rw [if_neg (by omega)]
    refine ⟨rfl, rfl, ?_⟩
    intro htc
    simp only [reset_timeout] at htc
    simp [breakerCall, reset_timeout, htc]

/-- Witness for C3 at `n = 3` (still closed) and `n = 7` (open, rejecting a
call 10 seconds after opening at time 0). -/
theorem breaker_threshold_behaviour_witness :
    ((runFailures 0 3).state = .closed ∧
      (runFailures 0 3).fail_counter = 3 ∧
      (breakerCall (runFailures 0 3) 10 (⟨.ok 0, 1⟩ : BodyResult Nat)).ran = true) ∧
    ((runFailures 0 7).state = .opened ∧
      (runFailures 0 7).opened_at = 0 ∧
      ((breakerCall (runFailures 0 7) 10 (⟨.ok 0, 1⟩ : BodyResult Nat)).ran = false ∧
        (breakerCall (runFailures 0 7) 10 (⟨.ok 0, 1⟩ : BodyResult Nat)).result =
          .error (.circuitBreakerError "Timeout not elapsed yet, circuit breaker still open") ∧
        (breakerCall (runFailures 0 7) 10 (⟨.ok 0, 1⟩ : BodyResult Nat)).breaker =
          runFailures 0 7)) := by
  refine ⟨(breaker_threshold_behaviour 3 0 10 ⟨.ok 0, 1⟩).1 (by decide), ?_⟩
  have h := (breaker_threshold_behaviour 7 0 10 (⟨.ok 0, 1⟩ : BodyResult Nat)).2 (by decide)
  exact ⟨h.1, h.2.1, h.2.2 (by decide)⟩

/-- Claim C9: a payload setting only the price is a non-empty patch, and
applying it to any stored record changes exactly the price field: the stored
record after the write equals the record before it with only `price` replaced,
and a read of the updated record enriched with companion data `ud` returns the
pre-update read enriched the same way, with only `price` replaced. -/
theorem price_only_update_mutates_only_price :
    (priceOnly 500).isEmptyDict = false ∧
    ∀ (p : Property) (pid : String) (ud : String),
      applyUpdate p (priceOnly 500) = { p with price := 500 } ∧
      (get_property_fetch breaker0 0 pid false
          (fun _ => .ok [applyUpdate p (priceOnly 500)]) (fun _ _ => .ok ud)).response =
        .ok { p with price := 500, user_data := ud } ∧
      (get_property_fetch breaker0 0 pid false
          (fun _ => .ok [p]) (fun _ _ => .ok ud)).response =
        .ok { p with user_data := ud } := by
  refine ⟨rfl, ?_⟩
  intro p pid ud
  refine ⟨rfl, ?_, ?_⟩ <;>
    simp [get_property_fetch, retryBreakerCall, max_attempts, retryLoop, breakerCall,
      breakerAttempt, breaker0, get_property_body, applyUpdate, priceOnly]

/-- Claim C10: every empty-payload update raises its 400 inside the
breaker-wrapped helper, so each one increments the shared breaker's
consecutive-failure counter; `fail_max` consecutive empty updates open the
shared breaker, after which every store operation — create, get by id, list,
update, delete — issued within `reset_timeout` is rejected with the 503
breaker response and makes no store call. -/
theorem empty_updates_trip_shared_breaker (t : Nat)
    (storeAtt : Nat → Except Exc (List Property)) :
    (∀ n, n < fail_max →
      (runEmptyUpdates t storeAtt n).state = .closed ∧
      (runEmptyUpdates t storeAtt n).fail_counter = n) ∧
    (runEmptyUpdates t storeAtt fail_max).state = .opened ∧
    (∀ tc, tc < t + reset_timeout →
      ∀ (p : Property) (pid : String) (cnt : Nat) (u : PropertyUpdate)
        (att attAll : Nat → Except Exc (List Property))
        (attLim : Nat → Nat → Except Exc (List Property))
        (catt : Nat → String → Except Exc String),
        ((create_property (runEmptyUpdates t storeAtt fail_max) tc p att).response =
            .httpError 503 "Service temporarily unavailable due to repeated failures." ∧
          (create_property (runEmptyUpdates t storeAtt fail_max) tc p att).storeCalls = 0) ∧
        ((get_property (runEmptyUpdates t storeAtt fail_max) tc pid none (.ok ()) att catt).response =
            .httpError 503 "Service temporarily unavailable due to repeated failures." ∧
          (get_property (runEmptyUpdates t storeAtt fail_max) tc pid none (.ok ()) att catt).storeCalls = 0) ∧
        ((get_properties (runEmptyUpdates t storeAtt fail_max) tc cnt attAll attLim).response =
            .httpError 503 "Service temporarily unavailable due to repeated failures." ∧
          (get_properties (runEmptyUpdates t storeAtt fail_max) tc cnt attAll attLim).storeCalls = 0) ∧
        ((update_property (runEmptyUpdates t storeAtt fail_max) tc pid u att).response =
            .httpError 503 "Service temporarily unavailable due to repeated failures." ∧
          (update_property (runEmptyUpdates t storeAtt fail_max) tc pid u att).storeCalls = 0) ∧
        ((delete_property (runEmptyUpdates t storeAtt fail_max) tc pid att).response =
            .httpError 503 "Service temporarily unavailable due to repeated failures." ∧
          (delete_property (runEmptyUpdates t storeAtt fail_max) tc pid att).storeCalls = 0)) := by
  refine ⟨?_, ?_, ?_⟩
  · intro n h
    rw [runEmptyUpdates_eq]
    simp [h]
  · rw [runEmptyUpdates_eq]
    simp [fail_max]
  · intro tc htc p pid cnt u att attAll attLim catt
    rw [runEmptyUpdates_eq]
    rw [if_neg (by simp [fail_max])]
    have hopen : ∀ (attB : Nat → BodyResult (List Property)),
        retryBreakerCall (⟨.opened, fail_max, t⟩ : CircuitBreaker) tc attB =
          ⟨⟨.opened, fail_max, t⟩,
            .error (.circuitBreakerError "Timeout not elapsed yet, circuit breaker still open"),
            1, 0, 0, []⟩ := by
      intro attB
      exact retryBreakerCall_open _ _ _ rfl htc
    refine ⟨?_, ?_, ?_, ?_, ?_⟩ <;>
      simp [create_property, get_property, get_property_fetch, get_properties,
        update_property, delete_property, hopen, handleEndpointError]

/-- Witness for C10 at `t = 0`, checking the open-state rejection at `tc = 10`
with concrete oracles and payloads. -/
theorem empty_updates_trip_shared_breaker_witness :
    ((runEmptyUpdates 0 (fun _ => .ok []) 2).state = .closed ∧
      (runEmptyUpdates 0 (fun _ => .ok []) 2).fail_counter = 2) ∧
    (runEmptyUpdates 0 (fun _ => .ok []) fail_max).state = .opened ∧
    ((create_property (runEmptyUpdates 0 (fun _ => .ok []) fail_max) 10 sampleProperty
        (fun _ => .ok [])).response =
      .httpError 503 "Service temporarily unavailable due to repeated failures.") := by
  have h := empty_updates_trip_shared_breaker 0 (fun _ => .ok [])
  refine ⟨h.1 2 (by decide), h.2.1, ?_⟩
  exact (((h.2.2 10 (by decide) sampleProperty "p1" 0 emptyUpdate (fun _ => .ok [])
    (fun _ => .ok []) (fun _ _ => .ok []) (fun _ _ => .ok "")).1).1)

/-- Counterexample to claim C1 as stated: with the store holding the requested
record, the same request answered 200 with the record when the Kafka publish
succeeds, but 400 with the exception text when the producer raises — the
publish failure does change the HTTP response. -/
theorem kafka_failure_changes_response_cex :
    (get_property breaker0 0 "p1" (some "u1") (.error (.kafkaError "NoBrokersAvailable"))
        (fun _ => .ok [sampleProperty]) (fun _ _ => .ok "USER")).response ≠
      (get_property breaker0 0 "p1" (some "u1") (.ok ())
        (fun _ => .ok [sampleProperty]) (fun _ _ => .ok "USER")).response ∧
    (get_property breaker0 0 "p1" (some "u1") (.ok ())
        (fun _ => .ok [sampleProperty]) (fun _ _ => .ok "USER")).response =
      .ok { sampleProperty with user_data := "USER" } ∧
    (get_property breaker0 0 "p1" (some "u1") (.error (.kafkaError "NoBrokersAvailable"))
        (fun _ => .ok [sampleProperty]) (fun _ _ => .ok "USER")).response =
      .httpError 400 "NoBrokersAvailable" := by
  refine ⟨by decide, rfl, rfl⟩

/-- Claim C1 amended: a failure of the event publish does change the response.
The Kafka producer is used inside the try block before the fetch, so when
`user_id` is provided and the publish raises, the request returns 400 with the
exception text, no event is emitted, the store fetch is never attempted, and
the breaker is untouched; only a successful publish lets the request proceed. -/
theorem kafka_failure_yields_400_and_skips_fetch (b : CircuitBreaker) (now : Nat)
    (pid uid : String) (e : Exc) (storeAtt : Nat → Except Exc (List Property))
    (companionAtt : Nat → String → Except Exc String) :
    get_property b now pid (some uid) (.error e) storeAtt companionAtt =
      ⟨b, .httpError 400 (excMessage e), false, 0, 0⟩ :=
  rfl

/-- Claim C2: the code at the failing input.  A get-by-id request whose id
matches no record (the store call succeeds with an empty result set) does not
produce the 404 mentioning the id: `response.data[0]` raises `IndexError`
inside the breaker-wrapped helper, the generic handler maps it to 400 with
detail "list index out of range", and the shared breaker records a failure.
The 404 branch of main.py:187 is unreachable. -/
theorem empty_result_set_yields_400_index_error :
    (get_property breaker0 0 "abc123" none (.ok ()) (fun _ => .ok [])
        (fun _ _ => .ok "")).response = .httpError 400 "list index out of range" ∧
    (∀ d : String,
      (get_property breaker0 0 "abc123" none (.ok ()) (fun _ => .ok [])
        (fun _ _ => .ok "")).response ≠ .httpError 404 d) ∧
    (get_property breaker0 0 "abc123" none (.ok ()) (fun _ => .ok [])
        (fun _ _ => .ok "")).breaker.fail_counter = 1 := by
  refine ⟨rfl, ?_, rfl⟩
  intro d h
  rw [show (get_property breaker0 0 "abc123" none (.ok ()) (fun _ => .ok [])
      (fun _ _ => .ok "")).response = .httpError 400 "list index out of range" from rfl] at h
  injection h with hs hd
  omega

/-- Counterexample to claim C4 as stated: one exhausted retry sequence from
the fresh breaker leaves the shared failure counter at 3, not at 1 — the
breaker counts every attempt, not one per logical call. -/
theorem breaker_counts_each_attempt_cex :
    (retryBreakerCall breaker0 0
        (fun _ => (⟨.error (.requestException "timeout"), 1⟩ : BodyResult (List Property)))).breaker.fail_counter = 3 ∧
    (retryBreakerCall breaker0 0
        (fun _ => (⟨.error (.requestException "timeout"), 1⟩ : BodyResult (List Property)))).breaker.fail_counter ≠ 1 ∧
    (retryBreakerCall breaker0 0
        (fun _ => (⟨.error (.requestException "timeout"), 1⟩ : BodyResult (List Property)))).result =
      .error .retryError := by
  refine ⟨rfl, by decide, rfl⟩

/-- Claim C4 amended: the decorator order `@retry_strategy` over `@breaker`
makes the breaker wrap each individual attempt, not the retry sequence: a
retry that exhausts its 3 attempts adds three failures to the breaker; a retry
that fails transiently once and then succeeds records the failure and then a
success that resets the counter to zero; and the open/closed check happens
before every attempt — an open breaker still suppresses every attempt
including the first, because `CircuitBreakerError` is not retried. -/
theorem breaker_per_attempt_counting :
    (∀ (now : Nat) (m : String),
      (retryBreakerCall breaker0 now
          (fun _ => (⟨.error (.requestException m), 1⟩ : BodyResult (List Property)))).breaker.fail_counter = 3 ∧
      (retryBreakerCall breaker0 now
          (fun _ => (⟨.error (.requestException m), 1⟩ : BodyResult (List Property)))).attempts = 3 ∧
      (retryBreakerCall breaker0 now
          (fun _ => (⟨.error (.requestException m), 1⟩ : BodyResult (List Property)))).result =
        .error .retryError) ∧
    (∀ (now : Nat) (m : String) (v : List Property)
      (att : Nat → BodyResult (List Property)),
      att 1 = ⟨.error (.requestException m), 1⟩ → att 2 = ⟨.ok v, 1⟩ →
      (retryBreakerCall breaker0 now att).result = .ok v ∧
      (retryBreakerCall breaker0 now att).breaker.fail_counter = 0 ∧
      (retryBreakerCall breaker0 now att).attempts = 2) ∧
    (∀ {α : Type} (b : CircuitBreaker) (now : Nat) (att : Nat → BodyResult α),
      b.state = .opened → now < b.opened_at + reset_timeout →
      retryBreakerCall b now att =
        ⟨b, .error (.circuitBreakerError "Timeout not elapsed yet, circuit breaker still open"),
          1, 0, 0, []⟩) := by
  refine ⟨?_, ?_, ?_⟩
  · intro now m
    refine ⟨?_, ?_, ?_⟩ <;>
      simp [retryBreakerCall, max_attempts, retryLoop, breakerCall, breakerAttempt,
        breaker0, is_transient_error, fail_max]
  · intro now m v att h1 h2
    refine ⟨?_, ?_, ?_⟩ <;>
      simp [retryBreakerCall, max_attempts, retryLoop, breakerCall, breakerAttempt,
        breaker0, is_transient_error, fail_max, h1, h2]
  · intro α b now att hs ht
    exact retryBreakerCall_open b now att hs ht

/-- Witness for the amended C4 at concrete inputs: all three parts
instantiated, with hypotheses discharged by evaluation. -/
theorem breaker_per_attempt_counting_witness :
    ((retryBreakerCall breaker0 4
        (fun _ => (⟨.error (.requestException "t"), 1⟩ : BodyResult (List Property)))).breaker.fail_counter = 3 ∧
      (retryBreakerCall breaker0 4
        (fun _ => (⟨.error (.requestException "t"), 1⟩ : BodyResult (List Property)))).attempts = 3 ∧
      (retryBreakerCall breaker0 4
        (fun _ => (⟨.error (.requestException "t"), 1⟩ : BodyResult (List Property)))).result =
        .error .retryError) ∧
    ((retryBreakerCall breaker0 4
        (fun k => if k = 1 then (⟨.error (.requestException "t"), 1⟩ : BodyResult (List Property))
          else ⟨.ok [], 1⟩)).result = .ok [] ∧
      (retryBreakerCall breaker0 4
        (fun k => if k = 1 then (⟨.error (.requestException "t"), 1⟩ : BodyResult (List Property))
          else ⟨.ok [], 1⟩)).breaker.fail_counter = 0 ∧
      (retryBreakerCall breaker0 4
        (fun k => if k = 1 then (⟨.error (.requestException "t"), 1⟩ : BodyResult (List Property))
          else ⟨.ok [], 1⟩)).attempts = 2) ∧
    retryBreakerCall (⟨.opened, 5, 0⟩ : CircuitBreaker) 10
        (fun _ => (⟨.ok [], 1⟩ : BodyResult (List Property))) =
      ⟨⟨.opened, 5, 0⟩,
        .error (.circuitBreakerError "Timeout not elapsed yet, circuit breaker still open"),
        1, 0, 0, []⟩ := by
  refine ⟨breaker_per_attempt_counting.1 4 "t", ?_, ?_⟩
  · exact breaker_per_attempt_counting.2.1 4 "t" []
      (fun k => if k = 1 then ⟨.error (.requestException "t"), 1⟩ else ⟨.ok [], 1⟩)
      rfl rfl
  · exact breaker_per_attempt_counting.2.2 ⟨.opened, 5, 0⟩ 10
      (fun _ => ⟨.ok [], 1⟩) rfl (by decide)

/-- Counterexample to claim C5 as stated: the delay before the second retry is
2 seconds, not the `min(6, 2 * 2^(k-1)) = 4` seconds the claim gives —
`wait_exponential(multiplier=1, min=2, max=6)` uses multiplier 1 and clamps
from below at 2. -/
theorem backoff_delay_cex :
    retryWait 2 = 2 ∧
    Nat.min 6 (2 * 2 ^ (2 - 1)) = 4 ∧
    retryWait 2 ≠ Nat.min 6 (2 * 2 ^ (2 - 1)) := by
  refine ⟨rfl, rfl, by decide⟩

/-- Claim C5 amended: the retry policy never re-attempts a failure that is not
a `RequestException` (it is surfaced immediately, after a single attempt);
transient failures are retried up to exactly 3 total attempts and then
`RetryError` is surfaced; and the backoff delay before the k-th retry is
`max(2, min(6, 1 * 2^(k-1)))` seconds — so the two delays that can actually
occur are both 2 seconds. -/
theorem retry_policy_behaviour :
    (∀ (now : Nat) (e : Exc) (sc : Nat) (att : Nat → BodyResult (List Property)),
      is_transient_error e = false → att 1 = ⟨.error e, sc⟩ →
      retryBreakerCall breaker0 now att = ⟨⟨.closed, 1, 0⟩, .error e, 1, 1, sc, []⟩) ∧
    (∀ (now : Nat) (att : Nat → BodyResult (List Property)),
      (∀ k, 1 ≤ k → k ≤ 3 → ∃ m sc, att k = ⟨.error (.requestException m), sc⟩) →
      (retryBreakerCall breaker0 now att).attempts = 3 ∧
      (retryBreakerCall breaker0 now att).result = .error .retryError ∧
      (retryBreakerCall breaker0 now att).waits = [retryWait 1, retryWait 2]) ∧
    (∀ k, retryWait k = Nat.max 2 (Nat.min 6 (1 * 2 ^ (k - 1)))) ∧
    retryWait 1 = 2 ∧ retryWait 2 = 2 := by
  refine ⟨?_, ?_, fun k => rfl, rfl, rfl⟩
  · intro now e sc att hperm h1
    simp [retryBreakerCall, max_attempts, retryLoop, breakerCall, breaker0, breakerAttempt,
      h1, hperm, fail_max]
  · intro now att h
    obtain ⟨m1, sc1, h1⟩ := h 1 (by omega) (by omega)
    obtain ⟨m2, sc2, h2⟩ := h 2 (by omega) (by omega)
    obtain ⟨m3, sc3, h3⟩ := h 3 (by omega) (by omega)
    refine ⟨?_, ?_, ?_⟩ <;>
      simp [retryBreakerCall, max_attempts, retryLoop, breakerCall, breaker0, breakerAttempt,
        h1, h2, h3, is_transient_error, fail_max]

/-- Witness for the amended C5: a permanent 404-classified failure is surfaced
after one attempt, and three transient failures exhaust the retries with both
backoff delays equal to 2 seconds. -/
theorem retry_policy_behaviour_witness :
    retryBreakerCall breaker0 9
        (fun _ => (⟨.error (.httpException 404 "nope"), 1⟩ : BodyResult (List Property))) =
      ⟨⟨.closed, 1, 0⟩, .error (.httpException 404 "nope"), 1, 1, 1, []⟩ ∧
    ((retryBreakerCall breaker0 9
        (fun _ => (⟨.error (.requestException "boom"), 1⟩ : BodyResult (List Property)))).attempts = 3 ∧
      (retryBreakerCall breaker0 9
        (fun _ => (⟨.error (.requestException "boom"), 1⟩ : BodyResult (List Property)))).result =
        .error .retryError ∧
      (retryBreakerCall breaker0 9
        (fun _ => (⟨.error (.requestException "boom"), 1⟩ : BodyResult (List Property)))).waits =
        [retryWait 1, retryWait 2]) := by
  constructor
  · exact retry_policy_behaviour.1 9 (.httpException 404 "nope") 1
      (fun _ => ⟨.error (.httpException 404 "nope"), 1⟩) rfl rfl
  · exact retry_policy_behaviour.2.1 9
      (fun _ => ⟨.error (.requestException "boom"), 1⟩)
      (fun k h1 h3 => ⟨"boom", 1, rfl⟩)

/-- Counterexample to claim C6 as stated: from the reachable breaker state
left by four consecutive failures, an empty-payload update is answered 503 —
not a 400-class error — because the in-helper 400 is the fifth consecutive
breaker failure and pybreaker replaces it with `CircuitBreakerError`.  No
store call is made. -/
theorem empty_update_at_threshold_cex :
    (update_property (runFailures 0 4) 7 "p1" emptyUpdate (fun _ => .ok [])).response =
      .httpError 503 "Service temporarily unavailable due to repeated failures." ∧
    ¬ is400Class
      (update_property (runFailures 0 4) 7 "p1" emptyUpdate (fun _ => .ok [])).response ∧
    (update_property (runFailures 0 4) 7 "p1" emptyUpdate (fun _ => .ok [])).storeCalls = 0 := by
  refine ⟨rfl, ?_, rfl⟩
  rintro ⟨s, d, h, h4, h5⟩
  rw [show (update_property (runFailures 0 4) 7 "p1" emptyUpdate (fun _ => .ok [])).response =
      .httpError 503 "Service temporarily unavailable due to repeated failures." from rfl] at h
  injection h with hs hd
  omega

/-- Claim C6 amended: an update whose payload is empty after stripping absent
fields never makes a store network call, whatever the breaker state; it is
rejected with the 400 "No fields provided for update." response whenever the
shared breaker is closed and the new failure count stays below `fail_max`, and
with the 503 breaker response otherwise. -/
theorem empty_update_rejected_before_store_call (b : CircuitBreaker) (now : Nat)
    (pid : String) (u : PropertyUpdate) (storeAtt : Nat → Except Exc (List Property))
    (hu : u.isEmptyDict = true) :
    (update_property b now pid u storeAtt).storeCalls = 0 ∧
    (b.state = .closed → b.fail_counter + 1 < fail_max →
      (update_property b now pid u storeAtt).response =
        .httpError 400 "400: No fields provided for update.") := by
  constructor
  · rcases b with ⟨st, c, a⟩
    cases st
    · by_cases hc : fail_max ≤ c + 1 <;>
        simp [update_property, retryBreakerCall, max_attempts, retryLoop, breakerCall,
          breakerAttempt, update_property_body, hu, hc, is_transient_error]
    · by_cases ht : now < a + reset_timeout <;>
        simp [update_property, retryBreakerCall, max_attempts, retryLoop, breakerCall,
          breakerAttempt, update_property_body, hu, ht, is_transient_error]
    · simp [update_property, retryBreakerCall, max_attempts, retryLoop, breakerCall,
        breakerAttempt, update_property_body, hu, is_transient_error]
  · intro hcl hlt
    rcases b with ⟨st, c, a⟩
    have hst : st = CircuitState.closed := hcl
    subst hst
    have hc : c + 1 < fail_max := hlt
    rw [update_property_empty_below c a now pid u storeAtt hu hc]

/-- Witness for the amended C6: the empty payload against the fresh breaker is
answered 400 with no store call. -/
theorem empty_update_rejected_before_store_call_witness :
    (update_property breaker0 0 "p1" emptyUpdate (fun _ => .ok [])).storeCalls = 0 ∧
    (update_property breaker0 0 "p1" emptyUpdate (fun _ => .ok [])).response =
      .httpError 400 "400: No fields provided for update." := by
  have h := empty_update_rejected_before_store_call breaker0 0 "p1" emptyUpdate
    (fun _ => .ok []) (by decide)
  exact ⟨h.1, h.2 rfl (by decide)⟩

/-- Counterexample to claim C7 as stated: with the store succeeding, three
transient failures of the companion-service enrichment call drive the single
shared breaker from 0 to 3 consecutive failures — enrichment failure does
change the breaker state governing store calls — and with that same shared
breaker open, the helper body (store fetch and enrichment alike) never runs. -/
theorem enrichment_shares_breaker_cex :
    (get_property breaker0 0 "p1" none (.ok ()) (fun _ => .ok [sampleProperty])
        (fun _ _ => .error (.requestException "user service down"))).breaker.fail_counter = 3 ∧
    (get_property breaker0 0 "p1" none (.ok ()) (fun _ => .ok [sampleProperty])
        (fun _ _ => .error (.requestException "user service down"))).breaker ≠ breaker0 ∧
    (get_property ⟨.opened, 5, 0⟩ 10 "p1" none (.ok ()) (fun _ => .ok [sampleProperty])
        (fun _ _ => .ok "U")).bodyRuns = 0 := by
  refine ⟨rfl, by decide, rfl⟩

/-- Claim C7 amended: the enrichment call runs inside the same single global
breaker-and-retry wrapping as the store fetch, one failure domain: when the
store succeeds but enrichment fails transiently on every attempt, the whole
helper is retried three times, the shared breaker counter rises to 3 and the
request is answered with the 503 retry-exhausted response; and an open shared
breaker within its cooldown blocks the helper body — store fetch and
enrichment alike — leaving the breaker unchanged. -/
theorem enrichment_same_failure_domain :
    (∀ (now : Nat) (p : Property) (m : String) (pid : String),
      (get_property breaker0 now pid none (.ok ()) (fun _ => .ok [p])
          (fun _ _ => .error (.requestException m))).breaker.fail_counter = 3 ∧
      (get_property breaker0 now pid none (.ok ()) (fun _ => .ok [p])
          (fun _ _ => .error (.requestException m))).response =
        .httpError 503
          "Service temporarily unavailable after multiple retry attempts. Please try again later.") ∧
    (∀ (b : CircuitBreaker) (now : Nat) (pid : String)
      (storeAtt : Nat → Except Exc (List Property))
      (companionAtt : Nat → String → Except Exc String),
      b.state = .opened → now < b.opened_at + reset_timeout →
      (get_property b now pid none (.ok ()) storeAtt companionAtt).bodyRuns = 0 ∧
      (get_property b now pid none (.ok ()) storeAtt companionAtt).breaker = b) := by
  constructor
  · intro now p m pid
    refine ⟨?_, ?_⟩ <;>
      simp [get_property, get_property_fetch, get_property_body, retryBreakerCall,
        max_attempts, retryLoop, breakerCall, breakerAttempt, breaker0,
        is_transient_error, fail_max, handleEndpointError]
  · intro b now pid storeAtt companionAtt hs ht
    refine ⟨?_, ?_⟩ <;>
      simp [get_property, get_property_fetch, retryBreakerCall_open _ _ _ hs ht,
        handleEndpointError]

/-- Witness for the amended C7 at concrete inputs. -/
theorem enrichment_same_failure_domain_witness :
    ((get_property breaker0 3 "p9" none (.ok ()) (fun _ => .ok [sampleProperty])
        (fun _ _ => .error (.requestException "down"))).breaker.fail_counter = 3 ∧
      (get_property breaker0 3 "p9" none (.ok ()) (fun _ => .ok [sampleProperty])
          (fun _ _ => .error (.requestException "down"))).response =
        .httpError 503
          "Service temporarily unavailable after multiple retry attempts. Please try again later.") ∧
    ((get_property ⟨.opened, 5, 2⟩ 20 "p9" none (.ok ()) (fun _ => .ok [sampleProperty])
        (fun _ _ => .ok "U")).bodyRuns = 0 ∧
      (get_property ⟨.opened, 5, 2⟩ 20 "p9" none (.ok ()) (fun _ => .ok [sampleProperty])
        (fun _ _ => .ok "U")).breaker = ⟨.opened, 5, 2⟩) := by
  refine ⟨enrichment_same_failure_domain.1 3 sampleProperty "down" "p9", ?_⟩
  exact enrichment_same_failure_domain.2 ⟨.opened, 5, 2⟩ 20 "p9"
    (fun _ => .ok [sampleProperty]) (fun _ _ => .ok "U") rfl (by decide)

/-- Counterexample to claim C8 as stated: a request whose store fetch finds no
record (and fails with the in-helper `IndexError`) still emits the view event
— the event is published before the store call, not only after it succeeds. -/
theorem event_published_despite_fetch_failure_cex :
    (get_property breaker0 0 "p1" (some "u1") (.ok ()) (fun _ => .ok [])
        (fun _ _ => .ok "U")).publishedEvent = true ∧
    (get_property breaker0 0 "p1" (some "u1") (.ok ()) (fun _ => .ok [])
        (fun _ _ => .ok "U")).response = .httpError 400 "list index out of range" :=
  ⟨rfl, rfl⟩

/-- Claim C8 amended: on get-by-id the view event is published before the
store fetch, not after it: whenever `user_id` is provided and the publish
succeeds, the event is emitted regardless of the store fetch outcome
(including failure and empty result); and when the publish itself raises, the
store fetch is never attempted at all. -/
theorem event_published_before_fetch (b : CircuitBreaker) (now : Nat) (pid uid : String)
    (storeAtt : Nat → Except Exc (List Property))
    (companionAtt : Nat → String → Except Exc String) :
    (get_property b now pid (some uid) (.ok ()) storeAtt companionAtt).publishedEvent = true ∧
    (∀ e : Exc,
      get_property b now pid (some uid) (.error e) storeAtt companionAtt =
        ⟨b, .httpError 400 (excMessage e), false, 0, 0⟩) :=
  ⟨get_property_fetch_published b now pid true storeAtt companionAtt, fun e => rfl⟩

end PropertyManaging
